import Mathlib

/-!
Verification of the request-signature checker of `slack_backend.py`.

The program's one piece with a real correctness contract is
`verify_slack_request` (src/slack_backend.py, lines 40-79): HMAC-SHA256
verification of an inbound Slack webhook, with a development-mode bypass, a
±300 s freshness window, fail-closed handling of missing headers and missing
secret, and a constant-time digest comparison.  The HTTP handler
`slack_handler` (lines 288-369) turns a failed verification into an HTTP 403.

The embedding below is byte-level: request bodies are lists of byte values
(`List Nat`, each < 256), strings are Lean `String`s, machine words of
SHA-256 are `Nat` reduced mod 2^32 explicitly.  Fallible Python operations
(`int()` on a non-numeric string, `bytes.decode` on invalid UTF-8,
`hmac.compare_digest` on non-ASCII text) are modelled in `Except`, and the
`try/except` wrapper of `verify_slack_request` maps any such error to
`False`, exactly as the source does.
-/

set_option maxRecDepth 100000

/-! ## SHA-256 (FIPS 180-4), on byte lists, words as `Nat` mod 2^32 -/

/-- The word size 2^32; all SHA-256 word arithmetic is reduced mod this. -/
def w32 : Nat := 4294967296

/-- Right rotation of a 32-bit word (input assumed < 2^32). -/
def rotr32 (n x : Nat) : Nat := x / 2 ^ n + x % 2 ^ n * 2 ^ (32 - n)

/-- Logical right shift of a 32-bit word. -/
def shr32 (n x : Nat) : Nat := x / 2 ^ n

/-- Bitwise complement of a 32-bit word. -/
def not32 (x : Nat) : Nat := Nat.xor x (w32 - 1)

/-- SHA-256 Σ0. -/
def bigSigma0 (x : Nat) : Nat := Nat.xor (Nat.xor (rotr32 2 x) (rotr32 13 x)) (rotr32 22 x)

/-- SHA-256 Σ1. -/
def bigSigma1 (x : Nat) : Nat := Nat.xor (Nat.xor (rotr32 6 x) (rotr32 11 x)) (rotr32 25 x)

/-- SHA-256 σ0. -/
def smallSigma0 (x : Nat) : Nat := Nat.xor (Nat.xor (rotr32 7 x) (rotr32 18 x)) (shr32 3 x)

/-- SHA-256 σ1. -/
def smallSigma1 (x : Nat) : Nat := Nat.xor (Nat.xor (rotr32 17 x) (rotr32 19 x)) (shr32 10 x)

/-- SHA-256 choice function. -/
def shaCh (e f g : Nat) : Nat := Nat.xor (Nat.land e f) (Nat.land (not32 e) g)

/-- SHA-256 majority function. -/
def shaMaj (a b c : Nat) : Nat := Nat.xor (Nat.xor (Nat.land a b) (Nat.land a c)) (Nat.land b c)

/-- The 64 SHA-256 round constants. -/
def sha_k : List Nat :=
  [0x428A2F98, 0x71374491, 0xB5C0FBCF, 0xE9B5DBA5, 0x3956C25B, 0x59F111F1, 0x923F82A4, 0xAB1C5ED5,
   0xD807AA98, 0x12835B01, 0x243185BE, 0x550C7DC3, 0x72BE5D74, 0x80DEB1FE, 0x9BDC06A7, 0xC19BF174,
   0xE49B69C1, 0xEFBE4786, 0x0FC19DC6, 0x240CA1CC, 0x2DE92C6F, 0x4A7484AA, 0x5CB0A9DC, 0x76F988DA,
   0x983E5152, 0xA831C66D, 0xB00327C8, 0xBF597FC7, 0xC6E00BF3, 0xD5A79147, 0x06CA6351, 0x14292967,
   0x27B70A85, 0x2E1B2138, 0x4D2C6DFC, 0x53380D13, 0x650A7354, 0x766A0ABB, 0x81C2C92E, 0x92722C85,
   0xA2BFE8A1, 0xA81A664B, 0xC24B8B70, 0xC76C51A3, 0xD192E819, 0xD6990624, 0xF40E3585, 0x106AA070,
   0x19A4C116, 0x1E376C08, 0x2748774C, 0x34B0BCB5, 0x391C0CB3, 0x4ED8AA4A, 0x5B9CCA4F, 0x682E6FF3,
   0x748F82EE, 0x78A5636F, 0x84C87814, 0x8CC70208, 0x90BEFFFA, 0xA4506CEB, 0xBEF9A3F7, 0xC67178F2]

/-- The SHA-256 initial hash value. -/
def sha_h0 : List Nat :=
  [0x6A09E667, 0xBB67AE85, 0x3C6EF372, 0xA54FF53A, 0x510E527F, 0x9B05688C, 0x1F83D9AB, 0x5BE0CD19]

/-- Group bytes into 32-bit big-endian words (dropping a trailing partial group,
which never occurs on the 64-byte blocks this is applied to). -/
def wordsOfBytesBE : List Nat → List Nat
  | b0 :: b1 :: b2 :: b3 :: rest => (((b0 * 256 + b1) * 256 + b2) * 256 + b3) :: wordsOfBytesBE rest
  | _ => []

/-- The four big-endian bytes of a 32-bit word. -/
def bytesOfWordBE (x : Nat) : List Nat :=
  [x / 2 ^ 24 % 256, x / 2 ^ 16 % 256, x / 2 ^ 8 % 256, x % 256]

/-- Extend a 16-word message block by `n` further schedule words. -/
def extendSchedule : Nat → List Nat → List Nat
  | 0, w => w
  | Nat.succ m, w =>
    let w2 := extendSchedule m w
    let i := w2.length
    w2 ++ [(smallSigma1 (w2.getD (i - 2) 0) + w2.getD (i - 7) 0 +
            smallSigma0 (w2.getD (i - 15) 0) + w2.getD (i - 16) 0) % w32]

/-- One SHA-256 round on the eight working variables, fed `k[i] + w[i]`. -/
def roundStep (st : List Nat) (kw : Nat) : List Nat :=
  match st with
  | [a, b, c, d, e, f, g, h] =>
    let t1 := (h + bigSigma1 e + shaCh e f g + kw) % w32
    let t2 := (bigSigma0 a + shaMaj a b c) % w32
    [(t1 + t2) % w32, a, b, c, (d + t1) % w32, e, f, g]
  | other => other

/-- The SHA-256 compression function on one 64-byte block. -/
def sha256Compress (h : List Nat) (block : List Nat) : List Nat :=
  let w := extendSchedule 48 (wordsOfBytesBE block)
  let kw := (sha_k.zip w).map (fun p => (p.1 + p.2) % w32)
  let final := kw.foldl roundStep h
  (h.zip final).map (fun p => (p.1 + p.2) % w32)

/-- The eight big-endian bytes of the 64-bit message-length field. -/
def bytesOfLen64 (n : Nat) : List Nat :=
  [n / 2 ^ 56 % 256, n / 2 ^ 48 % 256, n / 2 ^ 40 % 256, n / 2 ^ 32 % 256,
   n / 2 ^ 24 % 256, n / 2 ^ 16 % 256, n / 2 ^ 8 % 256, n % 256]

/-- SHA-256 padding: `0x80`, zeros to 56 mod 64, then the bit length. -/
def sha256Pad (msg : List Nat) : List Nat :=
  let l := msg.length
  let padLen := (120 - (l + 1) % 64) % 64
  msg ++ [0x80] ++ List.replicate padLen 0 ++ bytesOfLen64 (8 * l)

/-- Fold the compression function over the given number of 64-byte blocks. -/
def sha256Loop : Nat → List Nat → List Nat → List Nat
  | 0, h, _ => h
  | Nat.succ n, h, msg => sha256Loop n (sha256Compress h (msg.take 64)) (msg.drop 64)

/-- SHA-256 of a byte list, as its 32 digest bytes. -/
def sha256 (msg : List Nat) : List Nat :=
  let p := sha256Pad msg
  ((sha256Loop (p.length / 64) sha_h0 p).map bytesOfWordBE).flatten

/-- HMAC-SHA256 (RFC 2104) of a message under a key, both byte lists — the
algorithm behind Python's `hmac.new(key, msg, hashlib.sha256)`. -/
def hmacSha256 (key msg : List Nat) : List Nat :=
  let k0 := if key.length > 64 then sha256 key else key
  let kp := k0 ++ List.replicate (64 - k0.length) 0
  let ipadded := kp.map (fun b => Nat.xor b 0x36)
  let opadded := kp.map (fun b => Nat.xor b 0x5c)
  sha256 (opadded ++ sha256 (ipadded ++ msg))

/-! ## Hex rendering, UTF-8 bytes, Python string helpers -/

/-- Lowercase hexadecimal digit for a nibble value, by table lookup as in
CPython's digest rendering (the default is never reached on nibbles). -/
def hexChar (n : Nat) : Char := "0123456789abcdef".data.getD n 'f'

/-- Lowercase hex string of a byte list — Python's `.hexdigest()` rendering. -/
def hexDigest (bs : List Nat) : String :=
  String.mk ((bs.map fun b => [hexChar (b / 16 % 16), hexChar (b % 16)]).flatten)

/-- UTF-8 encoding of one Unicode scalar value, as bytes. -/
def charUtf8 (c : Char) : List Nat :=
  let n := c.toNat
  if n < 0x80 then [n]
  else if n < 0x800 then [0xC0 + n / 64, 0x80 + n % 64]
  else if n < 0x10000 then [0xE0 + n / 4096, 0x80 + n / 64 % 64, 0x80 + n % 64]
  else [0xF0 + n / 262144, 0x80 + n / 4096 % 64, 0x80 + n / 64 % 64, 0x80 + n % 64]

/-- UTF-8 encoding of a string, as bytes — Python's `str.encode("utf-8")`. -/
def strBytes (s : String) : List Nat := (s.data.map charUtf8).flatten

/-- Whether a byte is a UTF-8 continuation byte `0x80..0xBF`. -/
def utf8Cont (b : Nat) : Bool := 0x80 ≤ b && b ≤ 0xBF

/-- Fuel-indexed strict UTF-8 validity check (RFC 3629 table: no overlong
forms, no surrogates, nothing above U+10FFFF); each step consumes at least
one byte, so fuel `l.length` suffices. -/
def utf8ValidFuel : Nat → List Nat → Bool
  | 0, l => l.isEmpty
  | Nat.succ _, [] => true
  | Nat.succ fuel, b :: rest =>
    if b < 0x80 then utf8ValidFuel fuel rest
    else if 0xC2 ≤ b && b ≤ 0xDF then
      match rest with
      | c1 :: r => utf8Cont c1 && utf8ValidFuel fuel r
      | [] => false
    else if b = 0xE0 then
      match rest with
      | c1 :: c2 :: r => (0xA0 ≤ c1 && c1 ≤ 0xBF) && utf8Cont c2 && utf8ValidFuel fuel r
      | _ => false
    else if (0xE1 ≤ b && b ≤ 0xEC) || b = 0xEE || b = 0xEF then
      match rest with
      | c1 :: c2 :: r => utf8Cont c1 && utf8Cont c2 && utf8ValidFuel fuel r
      | _ => false
    else if b = 0xED then
      match rest with
      | c1 :: c2 :: r => (0x80 ≤ c1 && c1 ≤ 0x9F) && utf8Cont c2 && utf8ValidFuel fuel r
      | _ => false
    else if b = 0xF0 then
      match rest with
      | c1 :: c2 :: c3 :: r => (0x90 ≤ c1 && c1 ≤ 0xBF) && utf8Cont c2 && utf8Cont c3 && utf8ValidFuel fuel r
      | _ => false
    else if 0xF1 ≤ b && b ≤ 0xF3 then
      match rest with
      | c1 :: c2 :: c3 :: r => utf8Cont c1 && utf8Cont c2 && utf8Cont c3 && utf8ValidFuel fuel r
      | _ => false
    else if b = 0xF4 then
      match rest with
      | c1 :: c2 :: c3 :: r => (0x80 ≤ c1 && c1 ≤ 0x8F) && utf8Cont c2 && utf8Cont c3 && utf8ValidFuel fuel r
      | _ => false
    else false

/-- Whether a byte list is valid UTF-8 — i.e. whether Python's
`bytes.decode("utf-8")` succeeds on it. -/
def utf8Valid (l : List Nat) : Bool := utf8ValidFuel l.length l

/-- Whether a character in Python's default `str.strip()` whitespace set. -/
def pyWhitespace (c : Char) : Bool :=
  c = ' ' || c = '\t' || c = '\n' || c.toNat = 13 || c.toNat = 11 || c.toNat = 12

/-- Strip leading and trailing whitespace, as Python's `str.strip()`. -/
def pyStrip (l : List Char) : List Char :=
  ((l.dropWhile pyWhitespace).reverse.dropWhile pyWhitespace).reverse

/-- Parse a digit run with single underscores allowed between digits,
accumulating onto `acc`, as in Python 3 `int()` literals. -/
def pyDigitsGo (acc : Nat) : List Char → Option Nat
  | [] => some acc
  | '_' :: c :: rest =>
    if c.isDigit then pyDigitsGo (acc * 10 + (c.toNat - 48)) rest else none
  | ['_'] => none
  | c :: rest =>
    if c.isDigit then pyDigitsGo (acc * 10 + (c.toNat - 48)) rest else none

/-- Parse a non-empty digit run (first character must be a digit). -/
def pyDigitsStart : List Char → Option Nat
  | [] => none
  | c :: rest => if c.isDigit then pyDigitsGo (c.toNat - 48) rest else none

/-- Python's `int(str)`: optional surrounding whitespace, optional sign, then
a non-empty decimal digit run; `none` models the `ValueError` raise. -/
def pyInt (s : String) : Option Int :=
  match pyStrip s.data with
  | '+' :: rest => (pyDigitsStart rest).map Int.ofNat
  | '-' :: rest => (pyDigitsStart rest).map (fun n => -(n : Int))
  | l => (pyDigitsStart l).map Int.ofNat

/-- Whether every character of a string is ASCII. -/
def pyAsciiStr (s : String) : Bool := s.data.all fun c => c.toNat < 128

/-! ## The embedded program -/

/-- A Python exception that can escape the body of the `try` block of
`verify_slack_request`: `ValueError` from `int()`, `UnicodeDecodeError` from
`bytes.decode`, `TypeError` from `hmac.compare_digest` on non-ASCII text. -/
inductive PyErr
  | valueError
  | unicodeDecodeError
  | typeError
deriving DecidableEq, Repr

/-- Python's `hmac.compare_digest` on two `str` arguments: raises `TypeError`
unless both are pure ASCII, otherwise returns their (timing-independent)
equality. -/
def compare_digest (a b : String) : Except PyErr Bool :=
  if pyAsciiStr a && pyAsciiStr b then Except.ok (a == b) else Except.error PyErr.typeError

/-- The attacker-controlled parts of one inbound request: the two Slack
headers (absent = `none`) and the exact body bytes. -/
structure SlackRequest where
  timestampHeader : Option String
  signatureHeader : Option String
  rawBody : List Nat
deriving DecidableEq, Repr

/-- The body of the `try` block of `verify_slack_request`
(src/slack_backend.py lines 43-76), step for step: development-mode bypass,
timestamp-header presence (Python falsy check: absent or empty), `int()`
parse, ±300 s freshness window, signature-header presence, UTF-8 decode of
the body, signing-secret presence, HMAC-SHA256 of `v0:<timestamp>:<body>`,
constant-time comparison.  `development_mode` and `signing_secret` model the
two `os.getenv` reads; `current_time` models the `time.time()` reading. -/
def verify_slack_request_try (development_mode : Option String)
    (signing_secret : Option String) (req : SlackRequest) (current_time : Int) :
    Except PyErr Bool :=
  if development_mode = some "true" then Except.ok true
  else
    let timestamp := req.timestampHeader.getD ""
    if timestamp = "" then Except.ok false
    else
      match pyInt timestamp with
      | none => Except.error PyErr.valueError
      | some ts =>
        if (current_time - ts).natAbs > 60 * 5 then Except.ok false
        else
          let slack_signature := req.signatureHeader.getD ""
          if slack_signature = "" then Except.ok false
          else if !utf8Valid req.rawBody then Except.error PyErr.unicodeDecodeError
          else
            let secret := signing_secret.getD ""
            if secret = "" then Except.ok false
            else
              let my_signature := "v0=" ++ hexDigest (hmacSha256 (strBytes secret)
                (strBytes ("v0:" ++ timestamp ++ ":") ++ req.rawBody))
              compare_digest my_signature slack_signature

/-- `verify_slack_request` (src/slack_backend.py lines 40-79): the `try`
body with every escaping exception caught and turned into `false`. -/
def verify_slack_request (development_mode : Option String)
    (signing_secret : Option String) (req : SlackRequest) (current_time : Int) :
    Bool :=
  match verify_slack_request_try development_mode signing_secret req current_time with
  | Except.ok b => b
  | Except.error _ => false

/-- The reference signature: `v0=` followed by the lowercase hex HMAC-SHA256
of `v0:<timestamp>:<rawBody>` under the shared secret — the signature a
genuine sender computes, and the `my_signature` of the source. -/
def expected_signature (timestamp : String) (rawBody : List Nat) (secret : String) : String :=
  "v0=" ++ hexDigest (hmacSha256 (strBytes secret)
    (strBytes ("v0:" ++ timestamp ++ ":") ++ rawBody))

/-- The authentication gate of `slack_handler` (src/slack_backend.py lines
293-295): a request failing verification gets HTTP 403; otherwise the
handler proceeds and answers with whatever status the processing path
produces (200 in the source's happy path). -/
def slack_handler_status (development_mode : Option String)
    (signing_secret : Option String) (req : SlackRequest) (current_time : Int)
    (processing_status : Nat) : Nat :=
  if verify_slack_request development_mode signing_secret req current_time then
    processing_status
  else 403

/-- The concrete body of the spec's worked scenario, as its bytes. -/
def c2_body : List Nat := strBytes "text=hello&channel_id=C1"

/-- The same body with one byte changed (`o` to `p` in `hello`). -/
def c2_body_flip : List Nat := strBytes "text=hellp&channel_id=C1"

/-! ## Helper lemmas -/

theorem string_eq_empty_iff (s : String) : s = "" ↔ s.data = [] := by
  constructor
  · intro h; subst h; rfl
  · intro h; cases s; simp_all

theorem hexChar_ascii (n : Nat) : (hexChar n).toNat < 128 := by
  unfold hexChar
  by_cases h : n < ("0123456789abcdef".data).length
  · rw [List.getD_eq_getElem _ 'f' h]
    have hall : ∀ c ∈ "0123456789abcdef".data, c.toNat < 128 := by decide
    exact hall _ (List.getElem_mem h)
  · rw [List.getD_eq_default _ _ (Nat.le_of_not_lt h)]
    decide

theorem pyAsciiStr_hexDigest (bs : List Nat) : pyAsciiStr (hexDigest bs) = true := by
  unfold pyAsciiStr hexDigest
  rw [List.all_eq_true]
  intro c hc
  rw [List.mem_flatten] at hc
  obtain ⟨l, hl, hcl⟩ := hc
  rw [List.mem_map] at hl
  obtain ⟨b, _, rfl⟩ := hl
  rcases hcl with _ | ⟨_, h2⟩
  · simpa using hexChar_ascii (b / 16 % 16)
  · rcases h2 with _ | ⟨_, h3⟩
    · simpa using hexChar_ascii (b % 16)
    · cases h3

theorem pyAsciiStr_append (s t : String) :
    pyAsciiStr (s ++ t) = (pyAsciiStr s && pyAsciiStr t) := by
  unfold pyAsciiStr; rw [String.data_append, List.all_append]

theorem expected_signature_ascii (ts : String) (body : List Nat) (secret : String) :
    pyAsciiStr (expected_signature ts body secret) = true := by
  unfold expected_signature
  rw [pyAsciiStr_append, pyAsciiStr_hexDigest, Bool.and_true]
  decide

theorem expected_signature_ne_empty (ts : String) (body : List Nat) (secret : String) :
    expected_signature ts body secret ≠ "" := by
  unfold expected_signature
  intro h
  rw [string_eq_empty_iff, String.data_append, List.append_eq_nil] at h
  exact absurd h.1 (by decide)

theorem pyInt_empty : pyInt "" = none := rfl

theorem pyInt_some_ne_empty {ts : String} {t : Int} (h : pyInt ts = some t) : ts ≠ "" := by
  intro he; rw [he, pyInt_empty] at h; cases h

theorem verify_ok_eval (dm : Option String) (ts sig : String) (body : List Nat)
    (secret : String) (ct t : Int)
    (hdm : dm ≠ some "true") (hts : pyInt ts = some t)
    (hfresh : (ct - t).natAbs ≤ 300)
    (hbody : utf8Valid body = true) (hsecret : secret ≠ "") (hsig : sig ≠ "") :
    verify_slack_request dm (some secret) ⟨some ts, some sig, body⟩ ct
      = (pyAsciiStr sig && (expected_signature ts body secret == sig)) := by
  have hexp : expected_signature ts body secret = "v0=" ++ hexDigest (hmacSha256
      (strBytes secret) (strBytes ("v0:" ++ ts ++ ":") ++ body)) := rfl
  have hA : pyAsciiStr (expected_signature ts body secret) = true :=
    expected_signature_ascii ts body secret
  unfold verify_slack_request verify_slack_request_try
  simp only [Option.getD_some]
  rw [if_neg hdm, if_neg (pyInt_some_ne_empty hts), hts]
  simp only []
  rw [if_neg (by omega), if_neg hsig, if_neg (by simp [hbody]), if_neg hsecret, ← hexp]
  by_cases h : pyAsciiStr sig = true
  · simp [compare_digest, hA, h]
  · simp [compare_digest, hA, h]

theorem verify_of_try_error (development_mode signing_secret : Option String)
    (req : SlackRequest) (current_time : Int) (e : PyErr)
    (h : verify_slack_request_try development_mode signing_secret req current_time
      = Except.error e) :
    verify_slack_request development_mode signing_secret req current_time = false := by
  unfold verify_slack_request; rw [h]

theorem verify_sig_falsy (dm ss : Option String) (tsh sigh : Option String)
    (body : List Nat) (ct : Int) (hdm : dm ≠ some "true") (hsig : sigh.getD "" = "") :
    verify_slack_request dm ss ⟨tsh, sigh, body⟩ ct = false := by
  unfold verify_slack_request verify_slack_request_try
  rw [if_neg hdm]
  rcases tsh with _ | ts
  · simp
  · simp only [Option.getD_some]
    by_cases hts : ts = ""
    · simp [hts]
    · rw [if_neg hts]
      rcases hpy : pyInt ts with _ | t
      · simp [hpy]
      · by_cases hf : (ct - t).natAbs > 60 * 5
        · simp [if_pos hf]
        · simp [if_neg hf, hsig]

theorem verify_secret_falsy (dm ss : Option String) (req : SlackRequest) (ct : Int)
    (hdm : dm ≠ some "true") (hss : ss.getD "" = "") :
    verify_slack_request dm ss req ct = false := by
  rcases req with ⟨tsh, sigh, body⟩
  unfold verify_slack_request verify_slack_request_try
  rw [if_neg hdm]
  rcases tsh with _ | ts
  · simp
  · simp only [Option.getD_some]
    by_cases hts : ts = ""
    · simp [hts]
    · rw [if_neg hts]
      rcases hpy : pyInt ts with _ | t
      · simp [hpy]
      · simp only []
        by_cases hf : (ct - t).natAbs > 60 * 5
        · simp [if_pos hf]
        · rw [if_neg hf]
          rcases sigh with _ | sig
          · simp
          · simp only [Option.getD_some]
            by_cases hs : sig = ""
            · simp [hs]
            · rw [if_neg hs]
              by_cases hb : utf8Valid body = true
              · simp [hb, hss]
              · simp [Bool.not_eq_true] at hb
                simp [hb]

theorem verify_stale (dm ss : Option String) (sigh : Option String) (ts : String)
    (body : List Nat) (ct t : Int)
    (hdm : dm ≠ some "true") (hts : pyInt ts = some t) (hstale : (ct - t).natAbs > 300) :
    verify_slack_request dm ss ⟨some ts, sigh, body⟩ ct = false := by
  unfold verify_slack_request verify_slack_request_try
  simp only [Option.getD_some]
  rw [if_neg hdm, if_neg (pyInt_some_ne_empty hts), hts]
  simp [if_pos (by omega : (ct - t).natAbs > 60 * 5)]

theorem verify_accept_iff (dm : Option String) (ts sig : String) (body : List Nat)
    (secret : String) (ct t : Int)
    (hdm : dm ≠ some "true") (hts : pyInt ts = some t)
    (hfresh : (ct - t).natAbs ≤ 300)
    (hbody : utf8Valid body = true) (hsecret : secret ≠ "") :
    (verify_slack_request dm (some secret) ⟨some ts, some sig, body⟩ ct = true
      ↔ sig = expected_signature ts body secret) := by
  by_cases hsig : sig = ""
  · subst hsig
    constructor
    · intro h
      rw [verify_sig_falsy dm (some secret) (some ts) (some "") body ct hdm rfl] at h
      cases h
    · intro h
      exact absurd h.symm (expected_signature_ne_empty ts body secret)
  · rw [verify_ok_eval dm ts sig body secret ct t hdm hts hfresh hbody hsecret hsig]
    constructor
    · intro h
      rcases Bool.and_eq_true_iff.mp h with ⟨_, h2⟩
      exact (beq_iff_eq.mp h2).symm
    · intro h
      subst h
      rw [expected_signature_ascii, Bool.true_and]
      simp

/-! ## Claim theorems -/

/-- C4: when the development-mode bypass flag is set, `verify_slack_request`
returns true unconditionally — for every signing secret, every request
(headers present, absent or malformed; any body) and every clock reading. -/
theorem c4_bypass_accepts_everything (ss : Option String) (req : SlackRequest) (ct : Int) :
    verify_slack_request (some "true") ss req ct = true := rfl

/-- C5: with the bypass flag off, an empty or unset signing secret makes
`verify_slack_request` return false for every request — in particular for a
request carrying the correctly computed signature under the empty key. -/
theorem c5_empty_secret_rejects (req : SlackRequest) (ct : Int) :
    verify_slack_request none (some "") req ct = false ∧
    verify_slack_request none none req ct = false ∧
    verify_slack_request none (some "")
      ⟨some "1700000000", some (expected_signature "1700000000" c2_body ""), c2_body⟩
      1700000000 = false :=
  ⟨verify_secret_falsy none (some "") req ct (by decide) rfl,
   verify_secret_falsy none none req ct (by decide) rfl,
   verify_secret_falsy none (some "") _ 1700000000 (by decide) rfl⟩

/-- C6: with the bypass flag off, `verify_slack_request` returns false when
the timestamp header is absent, when its value does not parse as an integer,
and when the signature header is absent — in every ambient configuration. -/
theorem c6_missing_or_malformed_headers_reject (ss sigh tsh : Option String)
    (body : List Nat) (ct : Int) (ts : String) (hbad : pyInt ts = none) :
    verify_slack_request none ss ⟨none, sigh, body⟩ ct = false ∧
    verify_slack_request none ss ⟨some ts, sigh, body⟩ ct = false ∧
    verify_slack_request none ss ⟨tsh, none, body⟩ ct = false := by
  refine ⟨?_, ?_, verify_sig_falsy none ss tsh none body ct (by decide) rfl⟩
  · unfold verify_slack_request verify_slack_request_try
    simp
  · unfold verify_slack_request verify_slack_request_try
    by_cases hts : ts = ""
    · simp [hts]
    · simp only [Option.getD_some]
      rw [if_neg (by simp), if_neg hts, hbad]

/-- C6 witness: a concrete instance — secret configured, other headers
present, timestamp string `abc` unparseable — of each rejection. -/
theorem c6_missing_or_malformed_headers_reject_witness :
    pyInt "abc" = none ∧
    (verify_slack_request none (some "s") ⟨none, some "x", []⟩ 0 = false ∧
     verify_slack_request none (some "s") ⟨some "abc", some "x", []⟩ 0 = false ∧
     verify_slack_request none (some "s") ⟨some "1", none, []⟩ 0 = false) :=
  ⟨by decide,
   c6_missing_or_malformed_headers_reject (some "s") (some "x") (some "1") [] 0 "abc"
     (by decide)⟩

/-- C7 counterexample: two calls agreeing on all five of timestamp header,
raw body, provided signature, shared secret and clock reading — but made
under different values of the `DEVELOPMENT_MODE` configuration the function
reads — return different booleans, so the five inputs alone do not determine
the result. -/
theorem c7_five_inputs_not_deterministic :
    verify_slack_request (some "true") (some "s") ⟨none, none, []⟩ 0 = true ∧
    verify_slack_request none (some "s") ⟨none, none, []⟩ 0 = false :=
  ⟨rfl, rfl⟩

/-- C7 amended: verification is a deterministic pure function of the five
inputs together with the development-mode flag: two calls agreeing on all
six values return the same boolean. -/
theorem c7_six_inputs_deterministic (dm1 dm2 ss1 ss2 : Option String)
    (r1 r2 : SlackRequest) (ct1 ct2 : Int)
    (hdm : dm1 = dm2)
    (hts : r1.timestampHeader = r2.timestampHeader)
    (hsig : r1.signatureHeader = r2.signatureHeader)
    (hbody : r1.rawBody = r2.rawBody)
    (hss : ss1 = ss2) (hct : ct1 = ct2) :
    verify_slack_request dm1 ss1 r1 ct1 = verify_slack_request dm2 ss2 r2 ct2 := by
  rcases r1; rcases r2; simp_all

/-- C7 amended witness: the determinism theorem applied at a concrete pair
of equal six-tuples. -/
theorem c7_six_inputs_deterministic_witness :
    (some "1" : Option String) = some "1" ∧
    verify_slack_request none (some "s") ⟨some "1", some "x", []⟩ 0
      = verify_slack_request none (some "s") ⟨some "1", some "x", []⟩ 0 :=
  ⟨rfl, c7_six_inputs_deterministic none none (some "s") (some "s")
    ⟨some "1", some "x", []⟩ ⟨some "1", some "x", []⟩ 0 0 rfl rfl rfl rfl rfl rfl⟩

/-- C1: for every well-formed input — a timestamp string parsing to `t`, a
valid-UTF-8 raw body, a non-empty shared secret — with the bypass flag off,
the reference signature `v0=` + lowercase hex HMAC-SHA256 of
`v0:<timestamp>:<rawBody>` under the secret is accepted when the clock reads
exactly the timestamp. -/
theorem c1_reference_signature_verifies (dm : Option String) (ts : String)
    (body : List Nat) (secret : String) (t : Int)
    (hdm : dm ≠ some "true") (hts : pyInt ts = some t)
    (hbody : utf8Valid body = true) (hsecret : secret ≠ "") :
    verify_slack_request dm (some secret)
      ⟨some ts, some (expected_signature ts body secret), body⟩ t = true :=
  (verify_accept_iff dm ts _ body secret t t hdm hts (by simp) hbody hsecret).mpr rfl

/-- C1 witness: the theorem at the spec's concrete scenario. -/
theorem c1_reference_signature_verifies_witness :
    (none : Option String) ≠ some "true" ∧
    pyInt "1700000000" = some 1700000000 ∧
    utf8Valid c2_body = true ∧ "mysecret" ≠ "" ∧
    verify_slack_request none (some "mysecret")
      ⟨some "1700000000", some (expected_signature "1700000000" c2_body "mysecret"), c2_body⟩
      1700000000 = true :=
  ⟨by decide, by decide, by decide, by decide,
   c1_reference_signature_verifies none "1700000000" c2_body "mysecret" 1700000000
     (by decide) (by decide) (by decide) (by decide)⟩

/-- C3: with the bypass flag off, a clock-to-timestamp distance strictly
above 300 seconds is rejected whatever the signature; a distance of at most
300 seconds passes the freshness check (the reference signature is then
accepted); and in the spec's scenario, the correct signature presented 400
seconds late is rejected. -/
theorem c3_replay_window (dm : Option String) (ts sig : String) (body : List Nat)
    (secret : String) (ct t : Int)
    (hdm : dm ≠ some "true") (hts : pyInt ts = some t)
    (hbody : utf8Valid body = true) (hsecret : secret ≠ "") :
    ((ct - t).natAbs > 300 →
      verify_slack_request dm (some secret) ⟨some ts, some sig, body⟩ ct = false) ∧
    ((ct - t).natAbs ≤ 300 →
      verify_slack_request dm (some secret)
        ⟨some ts, some (expected_signature ts body secret), body⟩ ct = true) ∧
    verify_slack_request none (some "mysecret")
      ⟨some "1700000000", some (expected_signature "1700000000" c2_body "mysecret"), c2_body⟩
      1700000400 = false :=
  ⟨fun h => verify_stale dm (some secret) (some sig) ts body ct t hdm hts h,
   fun h => (verify_accept_iff dm ts _ body secret ct t hdm hts h hbody hsecret).mpr rfl,
   verify_stale none (some "mysecret") (some (expected_signature "1700000000" c2_body
     "mysecret")) "1700000000" c2_body 1700000400 1700000000 (by decide) (by decide)
     (by decide)⟩

/-- C3 witness: the theorem applied at the spec's scenario, once with the
clock 400 seconds past the timestamp (rejected) and once exactly 300 seconds
past it (the boundary, accepted). -/
theorem c3_replay_window_witness :
    (none : Option String) ≠ some "true" ∧
    pyInt "1700000000" = some 1700000000 ∧
    utf8Valid c2_body = true ∧ "mysecret" ≠ "" ∧
    verify_slack_request none (some "mysecret")
      ⟨some "1700000000", some "v0=x", c2_body⟩ 1700000400 = false ∧
    verify_slack_request none (some "mysecret")
      ⟨some "1700000000", some (expected_signature "1700000000" c2_body "mysecret"), c2_body⟩
      1700000300 = true :=
  ⟨by decide, by decide, by decide, by decide,
   (c3_replay_window none "1700000000" "v0=x" c2_body "mysecret" 1700000400 1700000000
     (by decide) (by decide) (by decide) (by decide)).1 (by decide),
   (c3_replay_window none "1700000000" "v0=x" c2_body "mysecret" 1700000300 1700000000
     (by decide) (by decide) (by decide) (by decide)).2.1 (by decide)⟩

/-- C8: every request failing verification gets the one identical rejection:
`verify_slack_request` reports a bare boolean false, and `slack_handler`
answers HTTP 403 whatever the processing path would have returned — shown for
an arbitrary failing input and for the concrete failure causes (missing
signature header, stale timestamp, empty secret). -/
theorem c8_failure_collapses_to_403 (dm ss : Option String) (req : SlackRequest)
    (ct : Int) (processing : Nat)
    (hfail : verify_slack_request dm ss req ct = false) :
    slack_handler_status dm ss req ct processing = 403 ∧
    slack_handler_status none (some "s") ⟨some "1700000000", none, []⟩ 1700000000 200 = 403 ∧
    slack_handler_status none (some "s") ⟨some "1700000000", some "v0=x", []⟩
      1700000400 200 = 403 ∧
    slack_handler_status none (some "") ⟨some "1700000000", some "v0=x", []⟩
      1700000000 200 = 403 := by
  refine ⟨?_, ?_, ?_, ?_⟩
  · simp [slack_handler_status, hfail]
  · simp [slack_handler_status,
      verify_sig_falsy none (some "s") (some "1700000000") none [] 1700000000
        (by decide) rfl]
  · simp [slack_handler_status,
      verify_stale none (some "s") (some "v0=x") "1700000000" [] 1700000400 1700000000
        (by decide) (by decide) (by decide)]
  · simp [slack_handler_status,
      verify_secret_falsy none (some "")
        ⟨some "1700000000", some "v0=x", []⟩ 1700000000 (by decide) rfl]

/-- C8 witness: the theorem at a concrete failing input (missing timestamp
header) with a would-be processing status of 200. -/
theorem c8_failure_collapses_to_403_witness :
    verify_slack_request none (some "s") ⟨none, some "x", []⟩ 0 = false ∧
    slack_handler_status none (some "s") ⟨none, some "x", []⟩ 0 200 = 403 :=
  ⟨by decide,
   (c8_failure_collapses_to_403 none (some "s") ⟨none, some "x", []⟩ 0 200 (by decide)).1⟩

/-- C10: `verify_slack_request` is total and never propagates an exception:
whenever the `try`-block body raises (modelled as `Except.error`), the
function returns false — shown in general, and concretely for a timestamp
header that fails integer conversion (`ValueError`) and for a body that is
not valid UTF-8 (`UnicodeDecodeError`). -/
theorem c10_exceptions_become_false (dm ss : Option String) (req : SlackRequest)
    (ct : Int) (e : PyErr)
    (herr : verify_slack_request_try dm ss req ct = Except.error e) :
    verify_slack_request dm ss req ct = false ∧
    verify_slack_request_try none (some "s") ⟨some "abc", some "x", []⟩ 0
      = Except.error PyErr.valueError ∧
    verify_slack_request none (some "s") ⟨some "abc", some "x", []⟩ 0 = false ∧
    verify_slack_request_try none (some "s") ⟨some "0", some "x", [255]⟩ 0
      = Except.error PyErr.unicodeDecodeError ∧
    verify_slack_request none (some "s") ⟨some "0", some "x", [255]⟩ 0 = false :=
  ⟨verify_of_try_error dm ss req ct e herr, rfl, rfl, rfl, rfl⟩

/-- C10 witness: the theorem at the concrete `ValueError` input. -/
theorem c10_exceptions_become_false_witness :
    verify_slack_request_try none (some "s") ⟨some "abc", some "x", []⟩ 0
      = Except.error PyErr.valueError ∧
    verify_slack_request none (some "s") ⟨some "abc", some "x", []⟩ 0 = false :=
  ⟨rfl,
   (c10_exceptions_become_false none (some "s") ⟨some "abc", some "x", []⟩ 0
     PyErr.valueError rfl).1⟩

/-- C2: with the bypass flag off and a fresh timestamp, the only signature
`verify_slack_request` accepts is `v0=` plus the lowercase hex HMAC-SHA256 of
`v0:` + the literal timestamp header + `:` + rawBody under the secret; in
the spec's concrete scenario the signing base string is exactly
`v0:1700000000:text=hello&channel_id=C1`, and the signature computed over a
body differing in a single byte is rejected. -/
theorem c2_only_reference_signature_accepted (dm : Option String) (ts sig : String)
    (body : List Nat) (secret : String) (ct t : Int)
    (hdm : dm ≠ some "true") (hts : pyInt ts = some t)
    (hfresh : (ct - t).natAbs ≤ 300)
    (hbody : utf8Valid body = true) (hsecret : secret ≠ "") :
    (verify_slack_request dm (some secret) ⟨some ts, some sig, body⟩ ct = true
      ↔ sig = expected_signature ts body secret) ∧
    strBytes ("v0:" ++ "1700000000" ++ ":") ++ c2_body
      = strBytes "v0:1700000000:text=hello&channel_id=C1" ∧
    verify_slack_request none (some "mysecret")
      ⟨some "1700000000",
       some (expected_signature "1700000000" c2_body_flip "mysecret"), c2_body⟩
      1700000000 = false := by
  refine ⟨verify_accept_iff dm ts sig body secret ct t hdm hts hfresh hbody hsecret,
    by decide, ?_⟩
  have hne : expected_signature "1700000000" c2_body_flip "mysecret"
      ≠ expected_signature "1700000000" c2_body "mysecret" := by decide
  have hiff := verify_accept_iff none "1700000000"
    (expected_signature "1700000000" c2_body_flip "mysecret") c2_body "mysecret"
    1700000000 1700000000 (by decide) (by decide) (by simp) (by decide) (by decide)
  exact Bool.eq_false_iff.mpr (fun h => hne (hiff.mp h))

/-- C2 witness: the theorem at the spec's concrete scenario. -/
theorem c2_only_reference_signature_accepted_witness :
    (none : Option String) ≠ some "true" ∧
    pyInt "1700000000" = some 1700000000 ∧
    ((1700000000 : Int) - 1700000000).natAbs ≤ 300 ∧
    utf8Valid c2_body = true ∧ "mysecret" ≠ "" ∧
    ((verify_slack_request none (some "mysecret")
        ⟨some "1700000000", some (expected_signature "1700000000" c2_body "mysecret"),
         c2_body⟩ 1700000000 = true
      ↔ expected_signature "1700000000" c2_body "mysecret"
          = expected_signature "1700000000" c2_body "mysecret") ∧
     strBytes ("v0:" ++ "1700000000" ++ ":") ++ c2_body
       = strBytes "v0:1700000000:text=hello&channel_id=C1" ∧
     verify_slack_request none (some "mysecret")
       ⟨some "1700000000",
        some (expected_signature "1700000000" c2_body_flip "mysecret"), c2_body⟩
       1700000000 = false) :=
  ⟨by decide, by decide, by decide, by decide, by decide,
   c2_only_reference_signature_accepted none "1700000000"
     (expected_signature "1700000000" c2_body "mysecret") c2_body "mysecret"
     1700000000 1700000000 (by decide) (by decide) (by decide) (by decide) (by decide)⟩
